import Mathlib

/-!
Verification of nlp/QA_Deploy.ipynb.

The notebook defines two serving callbacks, model_fn and transform_fn
(cell writing code/serve.py), archives model artifacts into model.tar.gz,
and drives a SageMaker deploy / predict / delete_endpoint lifecycle.

All interesting computation (BERT inference, tokenization, n-best span
extraction, JSON parsing, float formatting, parameter loading) is performed
by imported libraries; we model those imports as an abstract structure
BertLib of opaque functions, each returning Except PyErr to model the fact
that any Python call can raise.  The two callbacks are translated
statement by statement; a raised exception is an Except.error value that
every translated statement propagates unchanged, exactly as unguarded
Python code does.
-/

/-- Python exceptions that the embedded code can raise or propagate. -/
inductive PyErr
  | jsonDecodeError
  | indexError
  | keyError
  | fileNotFoundError
  | libraryError (msg : String)
  deriving DecidableEq, Repr

/-- The imported libraries used by code/serve.py (gluonnlp as nlp, mxnet as
mx, bert.data.qa, bert_qa_evaluate, json).  Every field is an opaque
behavior of code outside this file; result types are wrapped in
Except PyErr because any library call may raise. -/
structure BertLib where
  BertModel : Type
  Net : Type
  Vocab : Type
  Tok : Type
  SqT : Type
  Data : Type
  ExTuple : Type
  Feat : Type
  Res : Type
  /-- json.loads: raises for input that is not valid JSON. -/
  jsonLoads : String → Except PyErr Data
  /-- bert_qa_evaluate._test_example_transform -/
  testExampleTransform : Data → Except PyErr (List ExTuple)
  /-- nlp.model.get_model of bert_12_768_12 returning (bert_model, vocab). -/
  getModel : Except PyErr (BertModel × Vocab)
  /-- bert_qa_evaluate.BertForQA -/
  bertForQA : BertModel → Net
  /-- net.load_parameters at a path: raises for a missing or unreadable file. -/
  loadParameters : Net → String → Except PyErr Net
  /-- nlp.data.BERTTokenizer(vocab, lower=True) -/
  bertTokenizer : Vocab → Tok
  /-- SQuADTransform(tokenizer, is_pad=False, is_training=False, do_lookup=False) -/
  mkSquadTransform : Tok → SqT
  /-- bert_qa_evaluate.get_all_results: a dict from example id to results. -/
  getAllResults : Net → Vocab → SqT → List ExTuple → Except PyErr (String → Option Res)
  /-- squadTransform._transform applied to one dataset item (the lazy
  test_dataset.transform evaluates it per item during iteration). -/
  sqApply : SqT → ExTuple → Except PyErr Feat
  /-- features[0].example_id -/
  featExampleId : Feat → String
  /-- bert_qa_evaluate.predict(features, results, BERTBasicTokenizer(vocab))
  returning (prediction, nbest) where nbest is a list of
  (candidate text, probability) pairs. -/
  predict : Feat → Res → Vocab → Except PyErr (String × List (String × Rat))
  /-- The format directive %.2f applied to a float. -/
  fmtF2 : Rat → String

/-- Python list indexing l[i]: raises IndexError out of bounds. -/
def pyIndex {α : Type} (l : List α) (i : Nat) : Except PyErr α :=
  match l.get? i with
  | some x => .ok x
  | none => .error .indexError

/-- Python dict indexing d[k]: raises KeyError for a missing key. -/
def pyDictGet {ρ : Type} (d : String → Option ρ) (k : String) : Except PyErr ρ :=
  match d k with
  | some v => .ok v
  | none => .error .keyError

/-- Python dict assignment d[k] = v, keeping insertion order of keys. -/
def dictSet {β : Type} (d : List (String × β)) (k : String) (v : β) : List (String × β) :=
  match d with
  | [] => [(k, v)]
  | (k1, v1) :: rest => if k1 = k then (k, v) :: rest else (k1, v1) :: dictSet rest k v

/-- One JSON string escape step, as json.dumps performs it. -/
def jsonEscapeChar (c : Char) : String :=
  if c = '"' then "\\\"" else if c = '\\' then "\\\\" else String.singleton c

/-- Escape the characters of a string for JSON serialization. -/
def jsonEscape (s : String) : String :=
  String.join (s.toList.map jsonEscapeChar)

/-- A JSON string literal. -/
def jsonStr (s : String) : String :=
  "\"" ++ jsonEscape s ++ "\""

/-- A JSON array of strings, with the default json.dumps separator. -/
def jsonStrList (l : List String) : String :=
  "[" ++ String.intercalate ", " (l.map jsonStr) ++ "]"

/-- json.dumps applied to a dict from example id to a list of prediction
strings, keys in insertion order, default separators. -/
def jsonDumps (m : List (String × List String)) : String :=
  "\x7b" ++
    String.intercalate ", " (m.map (fun p => jsonStr p.1 ++ ": " ++ jsonStrList p.2)) ++
    "\x7d"

/-- One entry of nbest_prediction: the format
%.2f%% \t %s applied to (nbest[i][1] * 100, nbest[i][0]). -/
def mkPrediction (fmtF2 : Rat → String) (e : String × Rat) : String :=
  fmtF2 (e.2 * 100) ++ "% \t " ++ e.1

/-- The inner loop of transform_fn: for i in range(3), append the formatted
entry nbest[i]; the three unguarded index accesses are evaluated in order
and any IndexError propagates. -/
def nbestLoop (fmtF2 : Rat → String) (nbest : List (String × Rat)) :
    Except PyErr (List String) :=
  match pyIndex nbest 0 with
  | .error e => .error e
  | .ok e0 =>
    match pyIndex nbest 1 with
    | .error e => .error e
    | .ok e1 =>
      match pyIndex nbest 2 with
      | .error e => .error e
      | .ok e2 => .ok [mkPrediction fmtF2 e0, mkPrediction fmtF2 e1, mkPrediction fmtF2 e2]

/-- The for-loop of transform_fn over data_transform: each item is
transformed by squadTransform._transform, its example id looked up in
all_results, predict is called, and the three formatted n-best entries are
stored in all_predictions under the example id. -/
def processLoop (L : BertLib) (vocab : L.Vocab) (squadTransform : L.SqT)
    (allResults : String → Option L.Res) :
    List L.ExTuple → List (String × List String) →
      Except PyErr (List (String × List String))
  | [], acc => .ok acc
  | t :: rest, acc =>
    match L.sqApply squadTransform t with
    | .error e => .error e
    | .ok features =>
      match pyDictGet allResults (L.featExampleId features) with
      | .error e => .error e
      | .ok results =>
        match L.predict features results vocab with
        | .error e => .error e
        | .ok pr =>
          match nbestLoop L.fmtF2 pr.2 with
          | .error e => .error e
          | .ok nbestPrediction =>
            processLoop L vocab squadTransform allResults rest
              (dictSet acc (L.featExampleId features) nbestPrediction)

/-- The statements of transform_fn that compute response_body, after the
model handle has been destructured: parse input_data, build the test
dataset, collect all results, run the prediction loop, serialize. -/
def transformCore (L : BertLib) (net : L.Net) (vocab : L.Vocab) (squadTransform : L.SqT)
    (inputData : String) : Except PyErr String :=
  match L.jsonLoads inputData with
  | .error e => .error e
  | .ok data =>
    match L.testExampleTransform data with
    | .error e => .error e
    | .ok testExamplesTuples =>
      match L.getAllResults net vocab squadTransform testExamplesTuples with
      | .error e => .error e
      | .ok allResults =>
        match processLoop L vocab squadTransform allResults testExamplesTuples [] with
        | .error e => .error e
        | .ok allPredictions => .ok (jsonDumps allPredictions)

/-- The body of transform_fn after destructuring model: compute
response_body and return (response_body, output_content_type). -/
def transformWith (L : BertLib) (net : L.Net) (vocab : L.Vocab) (squadTransform : L.SqT)
    (inputData : String) (outputContentType : Option String) :
    Except PyErr (String × Option String) :=
  match transformCore L net vocab squadTransform inputData with
  | .error e => .error e
  | .ok responseBody => .ok (responseBody, outputContentType)

/-- transform_fn(model, input_data, input_content_type, output_content_type):
destructure model into (net, vocab, squadTransform) and run the body.
input_content_type is never read. -/
def transformFn (L : BertLib) (model : L.Net × L.Vocab × L.SqT) (inputData : String)
    (inputContentType outputContentType : Option String) :
    Except PyErr (String × Option String) :=
  let (net, vocab, squadTransform) := model
  transformWith L net vocab squadTransform inputData outputContentType

/-- The path computation in model_fn: params_path is replaced by
model_dir + "/" + params_path exactly when len(model_dir) > 0. -/
def resolveParamsPath (paramsPath modelDir : String) : String :=
  if modelDir.length > 0 then modelDir ++ "/" ++ paramsPath else paramsPath

/-- model_fn(params_path, model_dir = ""): build the bare BERT model, wrap
it in BertForQA, load the trained weights from the resolved path, build the
tokenizer and the SQuADTransform, and return the triple. -/
def modelFn (L : BertLib) (paramsPath : String) (modelDir : String) :
    Except PyErr (L.Net × L.Vocab × L.SqT) :=
  match L.getModel with
  | .error e => .error e
  | .ok (bertModel, vocab) =>
    let net := L.bertForQA bertModel
    match L.loadParameters net (resolveParamsPath paramsPath modelDir) with
    | .error e => .error e
    | .ok net =>
      let tokenizer := L.bertTokenizer vocab
      let transform := L.mkSquadTransform tokenizer
      .ok (net, vocab, transform)

/-- tar.add appends one member to the archive. -/
def tarAdd (archive : List String) (name : String) : List String :=
  archive ++ [name]

/-- The archiving cell: tarfile.open("model.tar.gz", "w:gz") followed by the
five tar.add calls in source order. -/
def modelTarball : List String :=
  tarAdd (tarAdd (tarAdd (tarAdd (tarAdd [] "code/serve.py")
    "bert/data/qa.py") "bert_qa_evaluate.py") "bert_qa-7eb11865.params") "vocab.json"

/-- A call expression in the notebook: the object or module it is made on,
and the attribute or function called. -/
structure PyCall where
  receiver : String
  method : String
  deriving DecidableEq, Repr

/-- Every module imported by the notebook's code cells. -/
def notebookImports : List String :=
  ["collections", "json", "logging", "warnings", "multiprocessing", "functools",
   "gluonnlp", "mxnet", "mxnet.gluon", "bert.data.qa", "bert.bert_qa_evaluate",
   "tarfile", "sagemaker", "sagemaker.mxnet.model"]

/-- The top-level call expressions of the notebook's code cells in source
order (the two shell cells are recorded as shell calls). -/
def notebookTopLevelCalls : List PyCall :=
  [⟨"tarfile", "open"⟩, ⟨"tar", "add"⟩, ⟨"tar", "add"⟩, ⟨"tar", "add"⟩,
   ⟨"tar", "add"⟩, ⟨"tar", "add"⟩,
   ⟨"shell", "aws ecr get-login"⟩, ⟨"shell", "docker build"⟩,
   ⟨"sagemaker", "get_execution_role"⟩, ⟨"sagemaker.mxnet.model", "MXNetModel"⟩,
   ⟨"sagemaker_model", "deploy"⟩, ⟨"predictor", "predict"⟩,
   ⟨"builtins", "print"⟩, ⟨"str", "format"⟩, ⟨"predictor", "delete_endpoint"⟩]

/-- The call expressions inside the bodies of model_fn and transform_fn. -/
def serveFunctionCalls : List PyCall :=
  [⟨"nlp.model", "get_model"⟩, ⟨"bert_qa_evaluate", "BertForQA"⟩,
   ⟨"net", "load_parameters"⟩, ⟨"nlp.data", "BERTTokenizer"⟩,
   ⟨"bert.data.qa", "SQuADTransform"⟩,
   ⟨"json", "loads"⟩, ⟨"bert_qa_evaluate", "_test_example_transform"⟩,
   ⟨"mx.gluon.data", "SimpleDataset"⟩, ⟨"bert_qa_evaluate", "get_all_results"⟩,
   ⟨"collections", "defaultdict"⟩, ⟨"test_dataset", "transform"⟩,
   ⟨"bert_qa_evaluate", "predict"⟩, ⟨"nlp.data", "BERTBasicTokenizer"⟩,
   ⟨"nbest_prediction", "append"⟩, ⟨"json", "dumps"⟩]

/-- Every call expression in the file. -/
def allFileCalls : List PyCall :=
  serveFunctionCalls ++ notebookTopLevelCalls

/-- The property of one all_predictions entry: its value is the list of the
first three formatted entries of an n-best list that the imported predict
returned. -/
def predictionSpec (L : BertLib) (vocab : L.Vocab) (p : String × List String) : Prop :=
  ∃ feat res s nbest, L.predict feat res vocab = Except.ok (s, nbest) ∧
    p.2 = (nbest.take 3).map (mkPrediction L.fmtF2)

theorem mem_dictSet {β : Type} {d : List (String × β)} {k : String} {v : β}
    {p : String × β} (h : p ∈ dictSet d k v) : p = (k, v) ∨ p ∈ d := by
  induction d with
  | nil =>
    simp only [dictSet, List.mem_singleton] at h
    exact Or.inl h
  | cons hd tl ih =>
    obtain ⟨k1, v1⟩ := hd
    simp only [dictSet] at h
    by_cases hk : k1 = k
    · rw [if_pos hk] at h
      rcases List.mem_cons.mp h with h1 | h1
      · exact Or.inl h1
      · exact Or.inr (List.mem_cons_of_mem _ h1)
    · rw [if_neg hk] at h
      rcases List.mem_cons.mp h with h1 | h1
      · exact Or.inr (h1 ▸ List.mem_cons_self _ _)
      · rcases ih h1 with h2 | h2
        · exact Or.inl h2
        · exact Or.inr (List.mem_cons_of_mem _ h2)

theorem nbestLoop_ok {fmtF2 : Rat → String} {nbest : List (String × Rat)}
    {l : List String} (h : nbestLoop fmtF2 nbest = .ok l) :
    3 ≤ nbest.length ∧ l = (nbest.take 3).map (mkPrediction fmtF2) := by
  rcases nbest with _ | ⟨a, _ | ⟨b, _ | ⟨c, rest⟩⟩⟩
  · exact absurd h (by simp [nbestLoop, pyIndex])
  · exact absurd h (by simp [nbestLoop, pyIndex])
  · exact absurd h (by simp [nbestLoop, pyIndex])
  · simp only [nbestLoop, pyIndex] at h
    cases h
    constructor
    · simp only [List.length_cons]
      omega
    · rfl

theorem processLoop_spec (L : BertLib) (vocab : L.Vocab) (sqT : L.SqT)
    (ar : String → Option L.Res) :
    ∀ (tuples : List L.ExTuple) (acc preds : List (String × List String)),
      processLoop L vocab sqT ar tuples acc = .ok preds →
      (∀ p ∈ acc, predictionSpec L vocab p) →
      (∀ p ∈ preds, predictionSpec L vocab p) := by
  intro tuples
  induction tuples with
  | nil =>
    intro acc preds h hacc
    simp only [processLoop] at h
    cases h
    exact hacc
  | cons t rest ih =>
    intro acc preds h hacc
    simp only [processLoop] at h
    split at h
    · cases h
    next feat hs =>
      split at h
      · cases h
      next res hg =>
        split at h
        · cases h
        next pr hp =>
          split at h
          · cases h
          next nb hn =>
            refine ih _ _ h ?_
            intro p hmem
            rcases mem_dictSet hmem with he | hm
            · subst he
              exact ⟨feat, res, pr.1, pr.2, by rw [hp], (nbestLoop_ok hn).2⟩
            · exact hacc p hm

theorem transformCore_ok_spec (L : BertLib) (net : L.Net) (vocab : L.Vocab)
    (sqT : L.SqT) (inputData : String) (body : String)
    (h : transformCore L net vocab sqT inputData = .ok body) :
    (∃ d, L.jsonLoads inputData = .ok d) ∧
    ∃ preds, body = jsonDumps preds ∧ ∀ p ∈ preds, predictionSpec L vocab p := by
  unfold transformCore at h
  split at h
  · cases h
  next d hj =>
    refine ⟨⟨d, hj⟩, ?_⟩
    split at h
    · cases h
    next tuples ht =>
      split at h
      · cases h
      next ar hg =>
        split at h
        · cases h
        next preds hp =>
          cases h
          exact ⟨preds, rfl,
            processLoop_spec L vocab sqT ar tuples [] preds hp (by simp)⟩

/-- A concrete instantiation of the imported libraries in which every call
succeeds, used to evaluate the callbacks on concrete requests. -/
def OkLib : BertLib where
  BertModel := Unit
  Net := Unit
  Vocab := Unit
  Tok := Unit
  SqT := Unit
  Data := Unit
  ExTuple := Unit
  Feat := Unit
  Res := Unit
  jsonLoads := fun _ => .ok ()
  testExampleTransform := fun _ => .ok [()]
  getModel := .ok ((), ())
  bertForQA := fun _ => ()
  loadParameters := fun _ _ => .ok ()
  bertTokenizer := fun _ => ()
  mkSquadTransform := fun _ => ()
  getAllResults := fun _ _ _ _ => .ok (fun _ => some ())
  sqApply := fun _ _ => .ok ()
  featExampleId := fun _ => "56be4db0acb8001400a502ee"
  predict := fun _ _ _ => .ok ("Denver Broncos",
    [("Denver Broncos", (9 : Rat) / 10), ("Broncos", (1 : Rat) / 20),
     ("Carolina Panthers", (1 : Rat) / 100)])
  fmtF2 := fun _ => "90.00"

/-- A concrete instantiation of the imported libraries in which json.loads
raises a JSONDecodeError and net.load_parameters raises a
FileNotFoundError. -/
def ErrLib : BertLib where
  BertModel := Unit
  Net := Unit
  Vocab := Unit
  Tok := Unit
  SqT := Unit
  Data := Unit
  ExTuple := Unit
  Feat := Unit
  Res := Unit
  jsonLoads := fun _ => .error .jsonDecodeError
  testExampleTransform := fun _ => .ok []
  getModel := .ok ((), ())
  bertForQA := fun _ => ()
  loadParameters := fun _ _ => .error .fileNotFoundError
  bertTokenizer := fun _ => ()
  mkSquadTransform := fun _ => ()
  getAllResults := fun _ _ _ _ => .ok (fun _ => none)
  sqApply := fun _ _ => .ok ()
  featExampleId := fun _ => "id"
  predict := fun _ _ _ => .ok ("", [])
  fmtF2 := fun _ => ""

/-- A concrete instantiation of the imported libraries in which
_test_example_transform raises and squadTransform._transform raises. -/
def TetErrLib : BertLib where
  BertModel := Unit
  Net := Unit
  Vocab := Unit
  Tok := Unit
  SqT := Unit
  Data := Unit
  ExTuple := Unit
  Feat := Unit
  Res := Unit
  jsonLoads := fun _ => .ok ()
  testExampleTransform := fun _ => .error (.libraryError "_test_example_transform")
  getModel := .ok ((), ())
  bertForQA := fun _ => ()
  loadParameters := fun _ _ => .ok ()
  bertTokenizer := fun _ => ()
  mkSquadTransform := fun _ => ()
  getAllResults := fun _ _ _ _ => .ok (fun _ => some ())
  sqApply := fun _ _ => .error (.libraryError "_transform")
  featExampleId := fun _ => "id"
  predict := fun _ _ _ => .ok ("", [])
  fmtF2 := fun _ => ""

/-- A concrete instantiation of the imported libraries in which
get_all_results raises and get_model raises. -/
def GarErrLib : BertLib where
  BertModel := Unit
  Net := Unit
  Vocab := Unit
  Tok := Unit
  SqT := Unit
  Data := Unit
  ExTuple := Unit
  Feat := Unit
  Res := Unit
  jsonLoads := fun _ => .ok ()
  testExampleTransform := fun _ => .ok [()]
  getModel := .error (.libraryError "get_model")
  bertForQA := fun _ => ()
  loadParameters := fun _ _ => .ok ()
  bertTokenizer := fun _ => ()
  mkSquadTransform := fun _ => ()
  getAllResults := fun _ _ _ _ => .error (.libraryError "get_all_results")
  sqApply := fun _ _ => .ok ()
  featExampleId := fun _ => "id"
  predict := fun _ _ _ => .ok ("", [])
  fmtF2 := fun _ => ""

/-- A concrete instantiation of the imported libraries in which predict
raises. -/
def PredErrLib : BertLib where
  BertModel := Unit
  Net := Unit
  Vocab := Unit
  Tok := Unit
  SqT := Unit
  Data := Unit
  ExTuple := Unit
  Feat := Unit
  Res := Unit
  jsonLoads := fun _ => .ok ()
  testExampleTransform := fun _ => .ok [()]
  getModel := .ok ((), ())
  bertForQA := fun _ => ()
  loadParameters := fun _ _ => .ok ()
  bertTokenizer := fun _ => ()
  mkSquadTransform := fun _ => ()
  getAllResults := fun _ _ _ _ => .ok (fun _ => some ())
  sqApply := fun _ _ => .ok ()
  featExampleId := fun _ => "id"
  predict := fun _ _ _ => .error (.libraryError "predict")
  fmtF2 := fun _ => ""

/-- C1: transform_fn receives serialized JSON and returns serialized JSON:
it parses input_data with the JSON decoder, and on success the first
component of its return value is the JSON serialization of a map from
example id to a list of prediction strings. -/
theorem transform_fn_json_in_json_out (L : BertLib) (model : L.Net × L.Vocab × L.SqT)
    (inputData : String) (ict oct : Option String) (r : String × Option String)
    (h : transformFn L model inputData ict oct = .ok r) :
    (∃ d, L.jsonLoads inputData = .ok d) ∧
    ∃ preds : List (String × List String), r.1 = jsonDumps preds := by
  obtain ⟨net, vocab, sqT⟩ := model
  have h2 : transformWith L net vocab sqT inputData oct = .ok r := h
  unfold transformWith at h2
  cases hc : transformCore L net vocab sqT inputData with
  | error e => rw [hc] at h2; cases h2
  | ok body =>
    rw [hc] at h2
    cases h2
    obtain ⟨hd, preds, hb, _⟩ := transformCore_ok_spec L net vocab sqT inputData body hc
    exact ⟨hd, preds, hb⟩

/-- C1 witness: the theorem applied to a concrete request against OkLib. -/
theorem transform_fn_json_in_json_out_witness :
    (∃ d, OkLib.jsonLoads "[[\"q\", \"c\"]]" = .ok d) ∧
    ∃ preds : List (String × List String),
      ((jsonDumps [("56be4db0acb8001400a502ee",
          ["90.00% \t Denver Broncos", "90.00% \t Broncos",
           "90.00% \t Carolina Panthers"])],
        (some "application/json" : Option String)) : String × Option String).1 =
        jsonDumps preds :=
  transform_fn_json_in_json_out OkLib ((), (), ()) "[[\"q\", \"c\"]]"
    (some "application/json") (some "application/json")
    (jsonDumps [("56be4db0acb8001400a502ee",
      ["90.00% \t Denver Broncos", "90.00% \t Broncos",
       "90.00% \t Carolina Panthers"])],
     some "application/json") rfl

theorem modelFn_getModel_ok (L : BertLib) (pp md : String) (bm : L.BertModel)
    (v : L.Vocab) (hg : L.getModel = .ok (bm, v)) :
    modelFn L pp md =
      match L.loadParameters (L.bertForQA bm) (resolveParamsPath pp md) with
      | .error e => .error e
      | .ok net => .ok (net, v, L.mkSquadTransform (L.bertTokenizer v)) := by
  unfold modelFn
  rw [hg]

theorem transformCore_step1 (L : BertLib) (net : L.Net) (vocab : L.Vocab)
    (sqT : L.SqT) (inputData : String) (d : L.Data)
    (hj : L.jsonLoads inputData = .ok d) :
    transformCore L net vocab sqT inputData =
      match L.testExampleTransform d with
      | .error e => .error e
      | .ok tuples =>
        match L.getAllResults net vocab sqT tuples with
        | .error e => .error e
        | .ok ar =>
          match processLoop L vocab sqT ar tuples [] with
          | .error e => .error e
          | .ok preds => .ok (jsonDumps preds) := by
  unfold transformCore
  rw [hj]

theorem transformCore_step2 (L : BertLib) (net : L.Net) (vocab : L.Vocab)
    (sqT : L.SqT) (inputData : String) (d : L.Data) (tuples : List L.ExTuple)
    (hj : L.jsonLoads inputData = .ok d)
    (ht : L.testExampleTransform d = .ok tuples) :
    transformCore L net vocab sqT inputData =
      match L.getAllResults net vocab sqT tuples with
      | .error e => .error e
      | .ok ar =>
        match processLoop L vocab sqT ar tuples [] with
        | .error e => .error e
        | .ok preds => .ok (jsonDumps preds) := by
  rw [transformCore_step1 L net vocab sqT inputData d hj, ht]

theorem transformCore_step3 (L : BertLib) (net : L.Net) (vocab : L.Vocab)
    (sqT : L.SqT) (inputData : String) (d : L.Data) (tuples : List L.ExTuple)
    (ar : String → Option L.Res)
    (hj : L.jsonLoads inputData = .ok d)
    (ht : L.testExampleTransform d = .ok tuples)
    (hg : L.getAllResults net vocab sqT tuples = .ok ar) :
    transformCore L net vocab sqT inputData =
      match processLoop L vocab sqT ar tuples [] with
      | .error e => .error e
      | .ok preds => .ok (jsonDumps preds) := by
  rw [transformCore_step2 L net vocab sqT inputData d tuples hj ht, hg]

theorem transformFn_core_error (L : BertLib) (net : L.Net) (vocab : L.Vocab)
    (sqT : L.SqT) (inputData : String) (ict oct : Option String) (e : PyErr)
    (hc : transformCore L net vocab sqT inputData = .error e) :
    transformFn L (net, vocab, sqT) inputData ict oct = .error e := by
  show transformWith L net vocab sqT inputData oct = .error e
  unfold transformWith
  rw [hc]

theorem pyDictGet_none {ρ : Type} {d : String → Option ρ} {k : String}
    (h : d k = none) : pyDictGet d k = .error .keyError := by
  unfold pyDictGet
  rw [h]

theorem pyDictGet_some {ρ : Type} {d : String → Option ρ} {k : String} {v : ρ}
    (h : d k = some v) : pyDictGet d k = .ok v := by
  unfold pyDictGet
  rw [h]

theorem processLoop_cons_step1 (L : BertLib) (vocab : L.Vocab) (sqT : L.SqT)
    (ar : String → Option L.Res) (t : L.ExTuple) (rest : List L.ExTuple)
    (acc : List (String × List String)) (feat : L.Feat)
    (hs : L.sqApply sqT t = .ok feat) :
    processLoop L vocab sqT ar (t :: rest) acc =
      match pyDictGet ar (L.featExampleId feat) with
      | .error e => .error e
      | .ok results =>
        match L.predict feat results vocab with
        | .error e => .error e
        | .ok pr =>
          match nbestLoop L.fmtF2 pr.2 with
          | .error e => .error e
          | .ok nb => processLoop L vocab sqT ar rest
              (dictSet acc (L.featExampleId feat) nb) := by
  simp only [processLoop]
  rw [hs]

theorem processLoop_cons_step2 (L : BertLib) (vocab : L.Vocab) (sqT : L.SqT)
    (ar : String → Option L.Res) (t : L.ExTuple) (rest : List L.ExTuple)
    (acc : List (String × List String)) (feat : L.Feat) (res : L.Res)
    (hs : L.sqApply sqT t = .ok feat)
    (hk : ar (L.featExampleId feat) = some res) :
    processLoop L vocab sqT ar (t :: rest) acc =
      match L.predict feat res vocab with
      | .error e => .error e
      | .ok pr =>
        match nbestLoop L.fmtF2 pr.2 with
        | .error e => .error e
        | .ok nb => processLoop L vocab sqT ar rest
            (dictSet acc (L.featExampleId feat) nb) := by
  rw [processLoop_cons_step1 L vocab sqT ar t rest acc feat hs, pyDictGet_some hk]

theorem processLoop_cons_step3 (L : BertLib) (vocab : L.Vocab) (sqT : L.SqT)
    (ar : String → Option L.Res) (t : L.ExTuple) (rest : List L.ExTuple)
    (acc : List (String × List String)) (feat : L.Feat) (res : L.Res)
    (pr : String × List (String × Rat))
    (hs : L.sqApply sqT t = .ok feat)
    (hk : ar (L.featExampleId feat) = some res)
    (hp : L.predict feat res vocab = .ok pr) :
    processLoop L vocab sqT ar (t :: rest) acc =
      match nbestLoop L.fmtF2 pr.2 with
      | .error e => .error e
      | .ok nb => processLoop L vocab sqT ar rest
          (dictSet acc (L.featExampleId feat) nb) := by
  rw [processLoop_cons_step2 L vocab sqT ar t rest acc feat res hs hk, hp]

/-- C2: neither callback handles errors: no exception is caught and no
error response is constructed.  A failure raised at any library call site
is returned unchanged: json.loads on invalid input,
_test_example_transform, get_all_results,
squadTransform._transform, the KeyError of the all_results lookup,
predict, and the IndexError of the n-best indexing all propagate out of
transform_fn; the loop passes its recursive result through unchanged; and
get_model and load_parameters failures propagate out of model_fn. -/
theorem no_error_handling (L : BertLib) :
    (∀ (model : L.Net × L.Vocab × L.SqT) (inputData : String)
       (ict oct : Option String) (e : PyErr),
       L.jsonLoads inputData = .error e →
       transformFn L model inputData ict oct = .error e) ∧
    (∀ (model : L.Net × L.Vocab × L.SqT) (inputData : String)
       (ict oct : Option String) (d : L.Data) (e : PyErr),
       L.jsonLoads inputData = .ok d →
       L.testExampleTransform d = .error e →
       transformFn L model inputData ict oct = .error e) ∧
    (∀ (net : L.Net) (vocab : L.Vocab) (sqT : L.SqT) (inputData : String)
       (ict oct : Option String) (d : L.Data) (tuples : List L.ExTuple) (e : PyErr),
       L.jsonLoads inputData = .ok d →
       L.testExampleTransform d = .ok tuples →
       L.getAllResults net vocab sqT tuples = .error e →
       transformFn L (net, vocab, sqT) inputData ict oct = .error e) ∧
    (∀ (net : L.Net) (vocab : L.Vocab) (sqT : L.SqT) (inputData : String)
       (ict oct : Option String) (d : L.Data) (tuples : List L.ExTuple)
       (ar : String → Option L.Res) (e : PyErr),
       L.jsonLoads inputData = .ok d →
       L.testExampleTransform d = .ok tuples →
       L.getAllResults net vocab sqT tuples = .ok ar →
       processLoop L vocab sqT ar tuples [] = .error e →
       transformFn L (net, vocab, sqT) inputData ict oct = .error e) ∧
    (∀ (vocab : L.Vocab) (sqT : L.SqT) (ar : String → Option L.Res)
       (t : L.ExTuple) (rest : List L.ExTuple)
       (acc : List (String × List String)) (e : PyErr),
       L.sqApply sqT t = .error e →
       processLoop L vocab sqT ar (t :: rest) acc = .error e) ∧
    (∀ (vocab : L.Vocab) (sqT : L.SqT) (ar : String → Option L.Res)
       (t : L.ExTuple) (rest : List L.ExTuple)
       (acc : List (String × List String)) (feat : L.Feat),
       L.sqApply sqT t = .ok feat →
       ar (L.featExampleId feat) = none →
       processLoop L vocab sqT ar (t :: rest) acc = .error .keyError) ∧
    (∀ (vocab : L.Vocab) (sqT : L.SqT) (ar : String → Option L.Res)
       (t : L.ExTuple) (rest : List L.ExTuple)
       (acc : List (String × List String)) (feat : L.Feat) (res : L.Res) (e : PyErr),
       L.sqApply sqT t = .ok feat →
       ar (L.featExampleId feat) = some res →
       L.predict feat res vocab = .error e →
       processLoop L vocab sqT ar (t :: rest) acc = .error e) ∧
    (∀ (vocab : L.Vocab) (sqT : L.SqT) (ar : String → Option L.Res)
       (t : L.ExTuple) (rest : List L.ExTuple)
       (acc : List (String × List String)) (feat : L.Feat) (res : L.Res)
       (pr : String × List (String × Rat)) (e : PyErr),
       L.sqApply sqT t = .ok feat →
       ar (L.featExampleId feat) = some res →
       L.predict feat res vocab = .ok pr →
       nbestLoop L.fmtF2 pr.2 = .error e →
       processLoop L vocab sqT ar (t :: rest) acc = .error e) ∧
    (∀ (vocab : L.Vocab) (sqT : L.SqT) (ar : String → Option L.Res)
       (t : L.ExTuple) (rest : List L.ExTuple)
       (acc : List (String × List String)) (feat : L.Feat) (res : L.Res)
       (pr : String × List (String × Rat)) (nb : List String),
       L.sqApply sqT t = .ok feat →
       ar (L.featExampleId feat) = some res →
       L.predict feat res vocab = .ok pr →
       nbestLoop L.fmtF2 pr.2 = .ok nb →
       processLoop L vocab sqT ar (t :: rest) acc =
         processLoop L vocab sqT ar rest (dictSet acc (L.featExampleId feat) nb)) ∧
    (∀ (paramsPath modelDir : String) (e : PyErr),
       L.getModel = .error e →
       modelFn L paramsPath modelDir = .error e) ∧
    (∀ (paramsPath modelDir : String) (e : PyErr) (bm : L.BertModel) (v : L.Vocab),
       L.getModel = .ok (bm, v) →
       L.loadParameters (L.bertForQA bm) (resolveParamsPath paramsPath modelDir) =
         .error e →
       modelFn L paramsPath modelDir = .error e) := by
  refine ⟨?_, ?_, ?_, ?_, ?_, ?_, ?_, ?_, ?_, ?_, ?_⟩
  · intro model inputData ict oct e he
    obtain ⟨net, vocab, sqT⟩ := model
    show transformWith L net vocab sqT inputData oct = .error e
    unfold transformWith transformCore
    rw [he]
  · intro model inputData ict oct d e hj ht
    obtain ⟨net, vocab, sqT⟩ := model
    refine transformFn_core_error L net vocab sqT inputData ict oct e ?_
    rw [transformCore_step1 L net vocab sqT inputData d hj, ht]
  · intro net vocab sqT inputData ict oct d tuples e hj ht hg
    refine transformFn_core_error L net vocab sqT inputData ict oct e ?_
    rw [transformCore_step2 L net vocab sqT inputData d tuples hj ht, hg]
  · intro net vocab sqT inputData ict oct d tuples ar e hj ht hg hp
    refine transformFn_core_error L net vocab sqT inputData ict oct e ?_
    rw [transformCore_step3 L net vocab sqT inputData d tuples ar hj ht hg, hp]
  · intro vocab sqT ar t rest acc e hs
    simp only [processLoop]
    rw [hs]
  · intro vocab sqT ar t rest acc feat hs hk
    rw [processLoop_cons_step1 L vocab sqT ar t rest acc feat hs, pyDictGet_none hk]
  · intro vocab sqT ar t rest acc feat res e hs hk hp
    rw [processLoop_cons_step2 L vocab sqT ar t rest acc feat res hs hk, hp]
  · intro vocab sqT ar t rest acc feat res pr e hs hk hp hn
    rw [processLoop_cons_step3 L vocab sqT ar t rest acc feat res pr hs hk hp, hn]
  · intro vocab sqT ar t rest acc feat res pr nb hs hk hp hn
    rw [processLoop_cons_step3 L vocab sqT ar t rest acc feat res pr hs hk hp, hn]
  · intro pp md e hg
    unfold modelFn
    rw [hg]
  · intro pp md e bm v hg hl
    rw [modelFn_getModel_ok L pp md bm v hg, hl]

/-- C2 witness: the theorem applied at concrete inputs to libraries each
of which raises at one call site: json.loads (ErrLib),
_test_example_transform and _transform (TetErrLib), get_all_results and
get_model (GarErrLib), predict (PredErrLib), a missing all_results key and
a short n-best list (ErrLib), the loop recursion (OkLib), and
load_parameters (ErrLib). -/
theorem no_error_handling_witness :
    transformFn ErrLib ((), (), ()) "not json" none none = .error .jsonDecodeError ∧
    transformFn TetErrLib ((), (), ()) "[]" none none =
      .error (.libraryError "_test_example_transform") ∧
    transformFn GarErrLib ((), (), ()) "[]" none none =
      .error (.libraryError "get_all_results") ∧
    transformFn PredErrLib ((), (), ()) "[]" none none =
      .error (.libraryError "predict") ∧
    processLoop TetErrLib () () (fun _ => some ()) [()] [] =
      .error (.libraryError "_transform") ∧
    processLoop ErrLib () () (fun _ => none) [()] [] = .error .keyError ∧
    processLoop PredErrLib () () (fun _ => some ()) [()] [] =
      .error (.libraryError "predict") ∧
    processLoop ErrLib () () (fun _ => some ()) [()] [] = .error .indexError ∧
    processLoop OkLib () () (fun _ => some ()) [()] [] =
      processLoop OkLib () () (fun _ => some ()) []
        (dictSet [] "56be4db0acb8001400a502ee"
          ["90.00% \t Denver Broncos", "90.00% \t Broncos",
           "90.00% \t Carolina Panthers"]) ∧
    modelFn GarErrLib "bert_qa-7eb11865.params" "" =
      .error (.libraryError "get_model") ∧
    modelFn ErrLib "bert_qa-7eb11865.params" "" = .error .fileNotFoundError :=
  ⟨(no_error_handling ErrLib).1 ((), (), ()) "not json" none none
      .jsonDecodeError rfl,
   (no_error_handling TetErrLib).2.1 ((), (), ()) "[]" none none ()
      (.libraryError "_test_example_transform") rfl rfl,
   (no_error_handling GarErrLib).2.2.1 () () () "[]" none none () [()]
      (.libraryError "get_all_results") rfl rfl rfl,
   (no_error_handling PredErrLib).2.2.2.1 () () () "[]" none none () [()]
      (fun _ => some ()) (.libraryError "predict") rfl rfl rfl rfl,
   (no_error_handling TetErrLib).2.2.2.2.1 () () (fun _ => some ()) () [] []
      (.libraryError "_transform") rfl,
   (no_error_handling ErrLib).2.2.2.2.2.1 () () (fun _ => none) () [] [] ()
      rfl rfl,
   (no_error_handling PredErrLib).2.2.2.2.2.2.1 () () (fun _ => some ()) () [] []
      () () (.libraryError "predict") rfl rfl rfl,
   (no_error_handling ErrLib).2.2.2.2.2.2.2.1 () () (fun _ => some ()) () [] []
      () () ("", []) .indexError rfl rfl rfl rfl,
   (no_error_handling OkLib).2.2.2.2.2.2.2.2.1 () () (fun _ => some ()) () [] []
      () () ("Denver Broncos",
        [("Denver Broncos", (9 : Rat) / 10), ("Broncos", (1 : Rat) / 20),
         ("Carolina Panthers", (1 : Rat) / 100)])
      ["90.00% \t Denver Broncos", "90.00% \t Broncos",
       "90.00% \t Carolina Panthers"] rfl rfl rfl rfl,
   (no_error_handling GarErrLib).2.2.2.2.2.2.2.2.2.1 "bert_qa-7eb11865.params" ""
      (.libraryError "get_model") rfl,
   (no_error_handling ErrLib).2.2.2.2.2.2.2.2.2.2 "bert_qa-7eb11865.params" ""
      .fileNotFoundError () () rfl rfl⟩

/-- C3: after the archiving step the tarball contains exactly the five
listed files, added in source order, and no others. -/
theorem tarball_contents :
    modelTarball = ["code/serve.py", "bert/data/qa.py", "bert_qa_evaluate.py",
      "bert_qa-7eb11865.params", "vocab.json"] ∧ modelTarball.length = 5 := by
  exact ⟨rfl, rfl⟩

/-- C4: every value model_fn returns is a triple (net, vocab, transform),
and transform_fn destructures such a value into exactly those three
components. -/
theorem model_fn_transform_fn_compatible (L : BertLib) (paramsPath modelDir : String)
    (m : L.Net × L.Vocab × L.SqT) (h : modelFn L paramsPath modelDir = .ok m) :
    ∃ net vocab squadTransform, m = (net, vocab, squadTransform) ∧
      ∀ inputData ict oct,
        transformFn L m inputData ict oct =
          transformWith L net vocab squadTransform inputData oct :=
  ⟨m.1, m.2.1, m.2.2, rfl, fun _ _ _ => rfl⟩

/-- C4 witness: the theorem applied to the handle OkLib's model_fn
returns. -/
theorem model_fn_transform_fn_compatible_witness :
    ∃ net vocab squadTransform,
      (((), (), ()) : OkLib.Net × OkLib.Vocab × OkLib.SqT) = (net, vocab, squadTransform) ∧
      ∀ inputData ict oct,
        transformFn OkLib ((), (), ()) inputData ict oct =
          transformWith OkLib net vocab squadTransform inputData oct :=
  model_fn_transform_fn_compatible OkLib "bert_qa-7eb11865.params" "" ((), (), ()) rfl

/-- C5: transform_fn computes no confidence scores itself: every
prediction string in a successful response is the fixed format applied to
a (candidate text, probability) pair taken unchanged from the n-best list
returned by the imported predict. -/
theorem predictions_from_nbest (L : BertLib) (model : L.Net × L.Vocab × L.SqT)
    (inputData : String) (ict oct : Option String) (r : String × Option String)
    (h : transformFn L model inputData ict oct = .ok r) :
    ∃ preds : List (String × List String), r.1 = jsonDumps preds ∧
      ∀ p ∈ preds, predictionSpec L model.2.1 p := by
  obtain ⟨net, vocab, sqT⟩ := model
  have h2 : transformWith L net vocab sqT inputData oct = .ok r := h
  unfold transformWith at h2
  cases hc : transformCore L net vocab sqT inputData with
  | error e => rw [hc] at h2; cases h2
  | ok body =>
    rw [hc] at h2
    cases h2
    obtain ⟨_, preds, hb, hspec⟩ := transformCore_ok_spec L net vocab sqT inputData body hc
    exact ⟨preds, hb, hspec⟩

/-- C5 witness: the theorem applied to a concrete request against OkLib. -/
theorem predictions_from_nbest_witness :
    ∃ preds : List (String × List String),
      ((jsonDumps [("56be4db0acb8001400a502ee",
          ["90.00% \t Denver Broncos", "90.00% \t Broncos",
           "90.00% \t Carolina Panthers"])],
        (none : Option String)) : String × Option String).1 = jsonDumps preds ∧
      ∀ p ∈ preds, predictionSpec OkLib () p :=
  predictions_from_nbest OkLib ((), (), ()) "[[\"question\", \"context\"]]" none none
    (jsonDumps [("56be4db0acb8001400a502ee",
      ["90.00% \t Denver Broncos", "90.00% \t Broncos",
       "90.00% \t Carolina Panthers"])], none) rfl

/-- C6: with at least 3 n-best entries the stored prediction list has
exactly 3 entries, the formatted entries at indices 0, 1, 2; with fewer,
the unguarded indexing raises IndexError. -/
theorem nbest_indexing_bound (fmtF2 : Rat → String) (nbest : List (String × Rat)) :
    (3 ≤ nbest.length →
      nbestLoop fmtF2 nbest = .ok ((nbest.take 3).map (mkPrediction fmtF2)) ∧
      ((nbest.take 3).map (mkPrediction fmtF2)).length = 3) ∧
    (nbest.length < 3 → nbestLoop fmtF2 nbest = .error .indexError) := by
  rcases nbest with _ | ⟨a, _ | ⟨b, _ | ⟨c, rest⟩⟩⟩
  · exact ⟨fun h => absurd h (by simp), fun _ => rfl⟩
  · exact ⟨fun h => absurd h (by simp), fun _ => rfl⟩
  · exact ⟨fun h => absurd h (by simp), fun _ => rfl⟩
  · refine ⟨fun _ => ⟨rfl, rfl⟩, fun h => absurd h (by simp)⟩

/-- C6 witness: the theorem applied to a 3-entry and a 1-entry n-best
list. -/
theorem nbest_indexing_bound_witness :
    (nbestLoop OkLib.fmtF2 [("a", 1), ("b", 2), ("c", 3)] =
        .ok (([("a", (1 : Rat)), ("b", 2), ("c", 3)].take 3).map
          (mkPrediction OkLib.fmtF2)) ∧
      (([("a", (1 : Rat)), ("b", 2), ("c", 3)].take 3).map
        (mkPrediction OkLib.fmtF2)).length = 3) ∧
    nbestLoop OkLib.fmtF2 [("a", 1)] = .error .indexError :=
  ⟨(nbest_indexing_bound OkLib.fmtF2 [("a", 1), ("b", 2), ("c", 3)]).1 (by simp),
   (nbest_indexing_bound OkLib.fmtF2 [("a", 1)]).2 (by simp)⟩

/-- C7: the response body is independent of both content-type arguments,
and the second component of the result is exactly the
output_content_type argument, unchanged. -/
theorem content_type_independence (L : BertLib) (model : L.Net × L.Vocab × L.SqT)
    (inputData : String) :
    (∀ ict ict2 oct oct2 : Option String,
      (transformFn L model inputData ict oct).map Prod.fst =
        (transformFn L model inputData ict2 oct2).map Prod.fst) ∧
    (∀ (ict oct : Option String) (r : String × Option String),
      transformFn L model inputData ict oct = .ok r → r.2 = oct) := by
  obtain ⟨net, vocab, sqT⟩ := model
  constructor
  · intro ict ict2 oct oct2
    show (transformWith L net vocab sqT inputData oct).map Prod.fst =
      (transformWith L net vocab sqT inputData oct2).map Prod.fst
    unfold transformWith
    cases transformCore L net vocab sqT inputData <;> rfl
  · intro ict oct r h
    have h2 : transformWith L net vocab sqT inputData oct = .ok r := h
    unfold transformWith at h2
    cases hc : transformCore L net vocab sqT inputData with
    | error e => rw [hc] at h2; cases h2
    | ok body => rw [hc] at h2; cases h2; rfl

/-- C7 witness: the theorem applied to OkLib at concrete content types. -/
theorem content_type_independence_witness :
    ((transformFn OkLib ((), (), ()) "payload" (some "application/json")
        (some "application/json")).map Prod.fst =
      (transformFn OkLib ((), (), ()) "payload" none none).map Prod.fst) ∧
    ((jsonDumps [("56be4db0acb8001400a502ee",
        ["90.00% \t Denver Broncos", "90.00% \t Broncos",
         "90.00% \t Carolina Panthers"])],
      (some "text/csv" : Option String)) : String × Option String).2 =
      some "text/csv" :=
  ⟨(content_type_independence OkLib ((), (), ()) "payload").1
      (some "application/json") none (some "application/json") none,
   (content_type_independence OkLib ((), (), ()) "payload").2
      (some "application/json") (some "text/csv")
      (jsonDumps [("56be4db0acb8001400a502ee",
        ["90.00% \t Denver Broncos", "90.00% \t Broncos",
         "90.00% \t Carolina Panthers"])], some "text/csv") rfl⟩

theorem ne_empty_length_pos {s : String} (h : s ≠ "") : 0 < s.length := by
  cases s with
  | mk data =>
    cases data with
    | nil => exact absurd rfl h
    | cons c cs => simp [String.length]

/-- C8: with empty model_dir the parameters are loaded from params_path
unchanged; with non-empty model_dir from model_dir + "/" + params_path;
and model_fn passes exactly the resolved path to load_parameters. -/
theorem model_dir_resolution (L : BertLib) (paramsPath modelDir : String) :
    (modelDir = "" → resolveParamsPath paramsPath modelDir = paramsPath) ∧
    (modelDir ≠ "" →
      resolveParamsPath paramsPath modelDir = modelDir ++ "/" ++ paramsPath) ∧
    (∀ (bm : L.BertModel) (v : L.Vocab), L.getModel = .ok (bm, v) →
      modelFn L paramsPath modelDir =
        match L.loadParameters (L.bertForQA bm)
            (resolveParamsPath paramsPath modelDir) with
        | .error e => .error e
        | .ok net => .ok (net, v, L.mkSquadTransform (L.bertTokenizer v))) := by
  refine ⟨?_, ?_, ?_⟩
  · intro h
    subst h
    rfl
  · intro h
    unfold resolveParamsPath
    rw [if_pos (ne_empty_length_pos h)]
  · intro bm v hg
    exact modelFn_getModel_ok L paramsPath modelDir bm v hg

/-- C8 witness: the theorem applied at an empty and at a non-empty
model_dir, and to OkLib's model_fn. -/
theorem model_dir_resolution_witness :
    resolveParamsPath "bert_qa-7eb11865.params" "" = "bert_qa-7eb11865.params" ∧
    resolveParamsPath "bert_qa-7eb11865.params" "/opt/ml/model" =
      "/opt/ml/model" ++ "/" ++ "bert_qa-7eb11865.params" ∧
    modelFn OkLib "bert_qa-7eb11865.params" "" =
      match OkLib.loadParameters (OkLib.bertForQA ())
          (resolveParamsPath "bert_qa-7eb11865.params" "") with
      | .error e => .error e
      | .ok net => .ok (net, (), OkLib.mkSquadTransform (OkLib.bertTokenizer ())) :=
  ⟨(model_dir_resolution OkLib "bert_qa-7eb11865.params" "").1 rfl,
   (model_dir_resolution OkLib "bert_qa-7eb11865.params" "/opt/ml/model").2.1
     (by decide),
   (model_dir_resolution OkLib "bert_qa-7eb11865.params" "").2.2 () () rfl⟩

/-- C9: in the notebook's top-level calls, deploy precedes predict,
predict precedes delete_endpoint, and each of the three occurs exactly
once, so the endpoint is never deleted before it is created or queried. -/
theorem endpoint_lifecycle_order :
    notebookTopLevelCalls.indexOf ⟨"sagemaker_model", "deploy"⟩ <
      notebookTopLevelCalls.indexOf ⟨"predictor", "predict"⟩ ∧
    notebookTopLevelCalls.indexOf ⟨"predictor", "predict"⟩ <
      notebookTopLevelCalls.indexOf ⟨"predictor", "delete_endpoint"⟩ ∧
    notebookTopLevelCalls.count ⟨"sagemaker_model", "deploy"⟩ = 1 ∧
    notebookTopLevelCalls.count ⟨"predictor", "predict"⟩ = 1 ∧
    notebookTopLevelCalls.count ⟨"predictor", "delete_endpoint"⟩ = 1 := by
  decide

/-- C10: the multiprocessing module is imported, yet no call in the file
is made on a process or thread module and none constructs a process,
thread or pool: the script manages no concurrency. -/
theorem no_concurrency_managed :
    "multiprocessing" ∈ notebookImports ∧
    (allFileCalls.all (fun c =>
      !(c.receiver == "mp" || c.receiver == "multiprocessing" ||
        c.receiver == "threading" ||
        c.method == "Process" || c.method == "Thread" || c.method == "Pool"))) =
      true := by
  decide
